import Mathlib

/-!
Shallow embedding of the document-extraction repository
(file_loader.py, data_extractor.py, extractor.py, storage.py).

Python strings are modelled as lists of characters (`PyStr`), so that
character-level operations of the source (str.strip, str.split, ','.join,
iteration over a string) are faithful.  Fallible calls into external
libraries (pdfminer, pdf2image, pytesseract, PIL) are modelled by `Option`:
`none` is the library call raising.  Side-effecting sinks are modelled by
the list of effects they perform: the filesystem sink returns the list of
(path, content) files it writes, the relational sink returns the list of
parameterized-insert rows it executes.
-/

/-- Python `str` as a sequence of characters. -/
abbrev PyStr := List Char

/-- ASCII whitespace as recognized by Python's `str.strip()`
(space, tab, newline, carriage return, vertical tab, form feed). -/
def pyIsSpace (c : Char) : Bool :=
  c = ' ' || c = '\t' || c = '\n' || c = '\r' || c = Char.ofNat 11 || c = Char.ofNat 12

/-- Python `str.strip()`: drop leading and trailing whitespace. -/
def pyStrip (s : PyStr) : PyStr :=
  ((s.dropWhile pyIsSpace).reverse.dropWhile pyIsSpace).reverse

/-- Python `str.split(sep)` for a one-character separator: `"" .split` gives
one empty field, every occurrence of the separator opens a new field.  This
is exactly `List.splitOn` on the character sequence. -/
def pySplit (sep : Char) (s : PyStr) : List PyStr :=
  s.splitOn sep

/-- Whether the first list is an initial segment of the second. -/
def pyStartsWith : PyStr → PyStr → Bool
  | [], _ => true
  | _ :: _, [] => false
  | a :: as, b :: bs => a = b && pyStartsWith as bs

/-- Python's substring test `needle in hay`. -/
def pySubstr (needle : PyStr) : PyStr → Bool
  | [] => pyStartsWith needle []
  | c :: cs => pyStartsWith needle (c :: cs) || pySubstr needle cs

/-! ## file_loader.py

The three loaders validate `path.endswith(ext) and os.path.isfile(path)` and
only then hand the path to the underlying parser.  The filesystem is a
predicate `isFile`; the parsers of python-docx / python-pptx are opaque
external collaborators, taken as an arbitrary function `parse`.  `load_file`
returns the raised `ValueError` message or the handle, paired (for the
parsing loaders) with a flag recording whether the parser was invoked. -/

/-- Python `str.endswith(suffix)`. -/
def pyEndsWith (s suffix : PyStr) : Bool :=
  pyStartsWith suffix.reverse s.reverse

def PDFLoader.validate_file (isFile : PyStr → Bool) (path : PyStr) : Bool :=
  pyEndsWith path (".pdf".data) && isFile path

/-- Source `PDFLoader.load_file` of file_loader.py: validate, then return the path
itself as the handle (no parser involved for PDF in this module). -/
def PDFLoader.load_file (isFile : PyStr → Bool) (path : PyStr) :
    Except String PyStr :=
  if !PDFLoader.validate_file isFile path then Except.error "Invalid PDF file"
  else Except.ok path

def DOCXLoader.validate_file (isFile : PyStr → Bool) (path : PyStr) : Bool :=
  pyEndsWith path (".docx".data) && isFile path

/-- Source `DOCXLoader.load_file`: validate, then parse with python-docx.  The
second component records whether `Document(...)` was invoked. -/
def DOCXLoader.load_file {H : Type} (isFile : PyStr → Bool) (parse : PyStr → H)
    (path : PyStr) : Except String H × Bool :=
  if DOCXLoader.validate_file isFile path then (Except.ok (parse path), true)
  else (Except.error "Invalid DOCX file", false)

def PPTLoader.validate_file (isFile : PyStr → Bool) (path : PyStr) : Bool :=
  pyEndsWith path (".pptx".data) && isFile path

/-- Source `PPTLoader.load_file`: validate, then parse with python-pptx.  The
second component records whether `Presentation(...)` was invoked. -/
def PPTLoader.load_file {H : Type} (isFile : PyStr → Bool) (parse : PyStr → H)
    (path : PyStr) : Except String H × Bool :=
  if PPTLoader.validate_file isFile path then (Except.ok (parse path), true)
  else (Except.error "Invalid PPTX file", false)

/-! ## extractor.py: PDFLoader with OCR fallback

`load_file` first runs pdfminer text extraction; a non-whitespace result is
returned directly.  Otherwise (empty/whitespace text, or pdfminer raising)
it calls `extract_text_with_ocr`, which rasterizes the PDF
(`convert_from_path`) and OCRs each page, catching per-page OCR errors.
Only an exception escaping `extract_text_with_ocr` becomes the final
`ValueError`.  The environment records the outcome of each external call:
`minerText = none` is pdfminer raising, `convertOk = false` is
`convert_from_path` raising, and `pages` holds each page's OCR outcome
(`none` = pytesseract raising on that page). -/

structure PdfEnv where
  validPath : Bool
  minerText : Option PyStr
  convertOk : Bool
  pages : List (Option PyStr)

/-- Source `PDFLoader.extract_text_with_ocr` of extractor.py: rasterize, then OCR
page by page; a page whose OCR raises is caught and skipped, an error in
rasterization escapes (modelled as `none`). -/
def ExtractorPy.PDFLoader.extract_text_with_ocr (e : PdfEnv) : Option PyStr :=
  if e.convertOk then
    some (e.pages.foldl (fun acc pg =>
      match pg with
      | some t => acc ++ t
      | none => acc) [])
  else none

/-- Source `PDFLoader.load_file` of extractor.py, instrumented with a flag that
records whether the OCR fallback path was entered. -/
def ExtractorPy.PDFLoader.load_file_instr (e : PdfEnv) :
    Except String PyStr × Bool :=
  if !e.validPath then (Except.error "Invalid PDF file", false)
  else
    match e.minerText with
    | some t =>
      if pyStrip t ≠ [] then (Except.ok t, false)
      else
        match ExtractorPy.PDFLoader.extract_text_with_ocr e with
        | some ocr => (Except.ok ocr, true)
        | none => (Except.error "Failed to extract text from PDF.", true)
    | none =>
      match ExtractorPy.PDFLoader.extract_text_with_ocr e with
      | some ocr => (Except.ok ocr, true)
      | none => (Except.error "Failed to extract text from PDF.", true)

/-- Source `PDFLoader.load_file` of extractor.py (result only). -/
def ExtractorPy.PDFLoader.load_file (e : PdfEnv) : Except String PyStr :=
  (ExtractorPy.PDFLoader.load_file_instr e).1

/-! ## data_extractor.py: document model

In-memory shapes of the parsed documents, at the granularity the extractor
reads them: pdfplumber pages with annotation/image/table lists, python-docx
paragraph/relationship/table trees, python-pptx slide/shape trees with
text frames, runs and hyperlinks, plus the core/info properties objects. -/

/-- A pdfplumber table cell: a string, or `None` for an empty detection. -/
abbrev Cell := Option PyStr

/-- A table as handed around by the extractor: rows of cells. -/
abbrev PyTable := List (List Cell)

structure PdfAnnot where
  uri : Option PyStr

structure PdfPage where
  annots : List PdfAnnot
  images : List PyStr
  tables : List PyTable

/-- A loaded PDF: the pdfminer text layer, the pdfplumber page list and the
document info dictionary (`pdf.metadata`). -/
structure PdfDoc where
  minerText : PyStr
  pages : List PdfPage
  info : List (String × Option String)

/-- The six core properties exposed by python-docx / python-pptx. -/
structure CoreProps where
  title : Option String
  author : Option String
  subject : Option String
  keywords : Option String
  created : Option String
  modified : Option String

/-- A relationship entry of the docx package part. -/
structure DocxRel where
  reltype : String
  target : PyStr
  targetRef : PyStr
  blob : PyStr

structure DocxDoc where
  paragraphs : List PyStr
  rels : List DocxRel
  tables : List PyTable
  coreProps : CoreProps

structure PptRun where
  text : PyStr
  hyperlinkAddress : Option PyStr

structure PptParagraph where
  runs : List PptRun

structure PptShape where
  hasText : Bool
  text : PyStr
  hasTextFrame : Bool
  textFrameParagraphs : List PptParagraph
  shapeType : Nat
  imageBlob : PyStr
  hasTable : Bool
  tableCells : PyTable

structure PptSlide where
  shapes : List PptShape

structure PptDoc where
  slides : List PptSlide
  coreProps : CoreProps

/-- The loader held by a `DataExtractor`: one of the three recognized
format loaders carrying its loaded content, or any other object. -/
inductive Loader where
  | pdf (d : PdfDoc)
  | docx (d : DocxDoc)
  | ppt (d : PptDoc)
  | other

/-- Source `docx.opc.constants.RELATIONSHIP_TYPE.HYPERLINK`. -/
def RT_HYPERLINK : String :=
  "http://schemas.openxmlformats.org/officeDocument/2006/relationships/hyperlink"

/-! ### data_extractor.py: extraction operations -/

/-- Source `DataExtractor.extract_text`: PDF returns the pdfminer text when it is
not whitespace-only (no OCR in this module, the fallthrough returns `""`);
DOCX joins paragraph texts with newlines; PPT joins the text of every shape
having a `text` attribute across all slides; anything else returns `""`. -/
def DataExtractor.extract_text : Loader → PyStr
  | Loader.pdf d => if pyStrip d.minerText ≠ [] then d.minerText else []
  | Loader.docx d => List.intercalate ['\n'] d.paragraphs
  | Loader.ppt d =>
    List.intercalate ['\n']
      (((d.slides.flatMap fun sl => sl.shapes).filterMap fun sh =>
        if sh.hasText then some sh.text else none))
  | Loader.other => []

/-- Source `DataExtractor.extract_pdf_links`: page order, annotation order, keeping
truthy `uri` entries (present and non-empty). -/
def DataExtractor.extract_pdf_links (d : PdfDoc) : List PyStr :=
  d.pages.flatMap fun pg =>
    if !pg.annots.isEmpty then
      pg.annots.filterMap fun a =>
        match a.uri with
        | some u => if u ≠ [] then some u else none
        | none => none
    else []

/-- Source `DataExtractor.extract_docx_links`: hyperlink-typed relationship targets
in relationship-table iteration order. -/
def DataExtractor.extract_docx_links (d : DocxDoc) : List PyStr :=
  d.rels.filterMap fun r =>
    if r.reltype = RT_HYPERLINK then some r.target else none

/-- Source `DataExtractor.extract_ppt_links`: slide/shape/paragraph/run order,
keeping runs whose hyperlink address is truthy; the collected element is
the address string. -/
def DataExtractor.extract_ppt_links (d : PptDoc) : List PyStr :=
  d.slides.flatMap fun sl =>
    sl.shapes.flatMap fun sh =>
      if sh.hasTextFrame then
        sh.textFrameParagraphs.flatMap fun pa =>
          pa.runs.filterMap fun r =>
            match r.hyperlinkAddress with
            | some a => if a ≠ [] then some a else none
            | none => none
      else []

/-- Source `DataExtractor.extract_links` dispatch. -/
def DataExtractor.extract_links : Loader → List PyStr
  | Loader.pdf d => DataExtractor.extract_pdf_links d
  | Loader.docx d => DataExtractor.extract_docx_links d
  | Loader.ppt d => DataExtractor.extract_ppt_links d
  | Loader.other => []

def DataExtractor.extract_pdf_images (d : PdfDoc) : List PyStr :=
  d.pages.flatMap fun pg => if !pg.images.isEmpty then pg.images else []

def DataExtractor.extract_docx_images (d : DocxDoc) : List PyStr :=
  d.rels.filterMap fun r =>
    if pySubstr ("image".data) r.targetRef then some r.blob else none

def DataExtractor.extract_ppt_images (d : PptDoc) : List PyStr :=
  d.slides.flatMap fun sl =>
    sl.shapes.filterMap fun sh =>
      if sh.shapeType = 13 then some sh.imageBlob else none

/-- Source `DataExtractor.extract_images` dispatch. -/
def DataExtractor.extract_images : Loader → List PyStr
  | Loader.pdf d => DataExtractor.extract_pdf_images d
  | Loader.docx d => DataExtractor.extract_docx_images d
  | Loader.ppt d => DataExtractor.extract_ppt_images d
  | Loader.other => []

def DataExtractor.extract_pdf_tables (d : PdfDoc) : List PyTable :=
  d.pages.flatMap fun pg => pg.tables

def DataExtractor.extract_docx_tables (d : DocxDoc) : List PyTable :=
  d.tables

def DataExtractor.extract_ppt_tables (d : PptDoc) : List PyTable :=
  d.slides.flatMap fun sl =>
    sl.shapes.filterMap fun sh =>
      if sh.hasTable then some sh.tableCells else none

/-- Source `DataExtractor.extract_tables` dispatch. -/
def DataExtractor.extract_tables : Loader → List PyTable
  | Loader.pdf d => DataExtractor.extract_pdf_tables d
  | Loader.docx d => DataExtractor.extract_docx_tables d
  | Loader.ppt d => DataExtractor.extract_ppt_tables d
  | Loader.other => []

/-- Source `DataExtractor.extract_pdf_metadata`: the pdfplumber document info
dictionary is returned as-is. -/
def DataExtractor.extract_pdf_metadata (d : PdfDoc) :
    List (String × Option String) :=
  d.info

/-- Source `DataExtractor.extract_document_metadata`: the six-key mapping read off
the core-properties object of a docx/pptx package. -/
def DataExtractor.extract_document_metadata (cp : CoreProps) :
    List (String × Option String) :=
  [("title", cp.title), ("author", cp.author), ("subject", cp.subject),
   ("keywords", cp.keywords), ("created", cp.created),
   ("modified", cp.modified)]

/-- Source `DataExtractor.extract_metadata` dispatch: PDF passes the info
dictionary through, DOCX/PPT read core properties, anything else `{}`. -/
def DataExtractor.extract_metadata : Loader → List (String × Option String)
  | Loader.pdf d => DataExtractor.extract_pdf_metadata d
  | Loader.docx d => DataExtractor.extract_document_metadata d.coreProps
  | Loader.ppt d => DataExtractor.extract_document_metadata d.coreProps
  | Loader.other => []

/-- The PPT branch of `DataExtractor.extract_links` in extractor.py: same
traversal and same hyperlink guard as data_extractor.py, but the collected
element is the pair `(run.text, run.hyperlink.address)`. -/
def ExtractorPy.DataExtractor.extract_links_ppt (d : PptDoc) :
    List (PyStr × PyStr) :=
  d.slides.flatMap fun sl =>
    sl.shapes.flatMap fun sh =>
      if sh.hasTextFrame then
        sh.textFrameParagraphs.flatMap fun pa =>
          pa.runs.filterMap fun r =>
            match r.hyperlinkAddress with
            | some a => if a ≠ [] then some (r.text, a) else none
            | none => none
      else []

/-! ## storage.py: the two sinks

A filesystem write is a `(path, content)` pair under the base directory; a
relational insert is the parameter tuple of the parameterized statement
(file_type plus the value column).  A PIL image that fails to decode is
`none`; a decoded image carries its PIL `format` and its (re-encoded)
bytes. -/

structure PilImage where
  fmt : String
  bytes : PyStr

def Storage.textFilePath (ft : String) : String := "text/" ++ ft ++ "_text.txt"

def Storage.linksFilePath (ft : String) : String := "links/" ++ ft ++ "_links.txt"

def Storage.tableFilePath (ft : String) (n : Nat) : String :=
  "tables/table_" ++ ft ++ "_" ++ toString n ++ ".csv"

def Storage.imageFilePath (ft : String) (n : Nat) (ext : String) : String :=
  "images/" ++ ft ++ "_image_" ++ toString n ++ "." ++ ext

def Storage.metadataFilePath (ft : String) : String :=
  "metadata/" ++ ft ++ "_metadata.txt"

/-- Source `Storage.save_text`: write `extract_text().strip()` to
`text/{file_type}_text.txt`. -/
def Storage.save_text (ft : String) (text : PyStr) : List (String × PyStr) :=
  [(Storage.textFilePath ft, pyStrip text)]

/-- Source `Storage.save_links` (via `_save_to_file`): one line `f"{item}\n"` per
link into `links/{file_type}_links.txt`. -/
def Storage.save_links (ft : String) (links : List PyStr) :
    List (String × PyStr) :=
  [(Storage.linksFilePath ft, (links.map (fun l => l ++ ['\n'])).join)]

/-- One field of Python's `csv.writer` (QUOTE_MINIMAL): quoted, with inner
quotes doubled, iff it holds a delimiter, quote char, CR or LF. -/
def Storage.csvField (c : Cell) : PyStr :=
  let s := c.getD []
  if s.any (fun ch => ch = ',' || ch = '"' || ch = '\r' || ch = '\n') then
    ['"'] ++ (s.flatMap fun ch => if ch = '"' then ['"', '"'] else [ch]) ++ ['"']
  else s

/-- A `csv.writer` row: comma-joined fields terminated by CRLF. -/
def Storage.csvRow (row : List Cell) : PyStr :=
  List.intercalate [','] (row.map Storage.csvField) ++ ['\r', '\n']

def Storage.csvRender (t : PyTable) : PyStr := (t.map Storage.csvRow).join

/-- Source `Storage.save_tables` (via `_write_csv`): one CSV file
`tables/table_{file_type}_{idx+1}.csv` per extracted table. -/
def Storage.save_tables (ft : String) (tables : List PyTable) :
    List (String × PyStr) :=
  tables.enum.map fun p =>
    (Storage.tableFilePath ft (p.1 + 1), Storage.csvRender p.2)

/-- Loop body of `Storage.save_images`, carrying the 0-based `enumerate`
index: a decodable image is saved as
`images/{ft}_image_{idx+1}.{format.lower()}`; a failing one is caught,
its (1-based) index recorded, and the loop continues. -/
def Storage.saveImagesFrom (ft : String) (i : Nat) :
    List (Option PilImage) → List (String × PyStr) × List Nat
  | [] => ([], [])
  | some img :: rest =>
    let r := Storage.saveImagesFrom ft (i + 1) rest
    ((Storage.imageFilePath ft (i + 1) img.fmt.toLower, img.bytes) :: r.1, r.2)
  | none :: rest =>
    let r := Storage.saveImagesFrom ft (i + 1) rest
    (r.1, (i + 1) :: r.2)

/-- Source `Storage.save_images`: files written, and indices of the images whose
decode failed (recorded by the error print, not propagated). -/
def Storage.save_images (ft : String) (imgs : List (Option PilImage)) :
    List (String × PyStr) × List Nat :=
  Storage.saveImagesFrom ft 0 imgs

/-- Source `Storage.save_metadata`: one `key: value` line per metadata entry. -/
def Storage.save_metadata (ft : String) (md : List (String × Option String))
    : List (String × PyStr) :=
  [(Storage.metadataFilePath ft,
    (md.map fun kv =>
      kv.1.data ++ ':' :: ' ' :: (match kv.2 with
        | some v => v.data
        | none => "None".data) ++ ['\n']).join)]

/-- Source `StorageSQL.save_text` via `_save_to_db`: the generic helper iterates
`for item in data` over the extracted value — for a string that iteration
is per character, so each character becomes its own parameterized insert
`(file_type, content)` into `extracted_text`. -/
def StorageSQL.save_text (ft : String) (text : PyStr) :
    List (String × PyStr) :=
  text.map fun c => (ft, [c])

/-- Source `StorageSQL.save_links` via `_save_to_db`: one insert
`(file_type, link)` into `extracted_links` per extracted link. -/
def StorageSQL.save_links (ft : String) (links : List PyStr) :
    List (String × PyStr) :=
  links.map fun l => (ft, l)

/-- A cell as rendered by `StorageSQL.save_tables`:
`str(item) if item is not None else ''`. -/
def StorageSQL.serializeCell (c : Cell) : PyStr :=
  match c with
  | some s => s
  | none => []

/-- One row of the serialized blob: cells comma-joined. -/
def StorageSQL.serializeRow (row : List Cell) : PyStr :=
  List.intercalate [','] (row.map StorageSQL.serializeCell)

/-- The whole-table blob of `StorageSQL.save_tables`: rows newline-joined. -/
def StorageSQL.serializeTable (t : PyTable) : PyStr :=
  List.intercalate ['\n'] (t.map StorageSQL.serializeRow)

/-- Source `StorageSQL.save_tables`: one insert `(file_type, table_data)` into
`extracted_tables` per table, with the table serialized to one blob. -/
def StorageSQL.save_tables (ft : String) (tables : List PyTable) :
    List (String × PyStr) :=
  tables.map fun t => (ft, StorageSQL.serializeTable t)

/-- Loop body of `StorageSQL.save_images`: a decodable image is re-encoded
and inserted as `(file_type, image)`; a failing one is caught, its index
recorded, and the loop continues. -/
def StorageSQL.saveImagesFrom (ft : String) (i : Nat) :
    List (Option PilImage) → List (String × PyStr) × List Nat
  | [] => ([], [])
  | some img :: rest =>
    let r := StorageSQL.saveImagesFrom ft (i + 1) rest
    ((ft, img.bytes) :: r.1, r.2)
  | none :: rest =>
    let r := StorageSQL.saveImagesFrom ft (i + 1) rest
    (r.1, (i + 1) :: r.2)

/-- Source `StorageSQL.save_images`: inserts performed, and indices of the images
whose decode failed. -/
def StorageSQL.save_images (ft : String) (imgs : List (Option PilImage)) :
    List (String × PyStr) × List Nat :=
  StorageSQL.saveImagesFrom ft 0 imgs

/-- Deserialization of a stored table blob as described by the spec's
round-trip property: split the blob on newlines, then each row on commas. -/
def StorageSQL.deserializeTable (blob : PyStr) : List (List PyStr) :=
  (pySplit '\n' blob).map (pySplit ',')

/-- The row/cell structure a table is expected to round-trip to: every cell
with `None` rendered as the empty string. -/
def StorageSQL.renderTable (t : PyTable) : List (List PyStr) :=
  t.map fun row => row.map StorageSQL.serializeCell

/-! ## Concrete documents used as witnesses and counterexamples -/

/-- A core-properties object with every property absent. -/
def noProps : CoreProps :=
  { title := none, author := none, subject := none, keywords := none,
    created := none, modified := none }

/-- A run with no hyperlink. -/
def demoRunPlain : PptRun := { text := "hello".data, hyperlinkAddress := none }

/-- The single hyperlinked run: text `click`, address `http://x`. -/
def demoRunLink : PptRun :=
  { text := "click".data, hyperlinkAddress := some "http://x".data }

def demoShape1 : PptShape :=
  { hasText := true, text := "hello".data, hasTextFrame := true,
    textFrameParagraphs := [{ runs := [demoRunPlain] }], shapeType := 1,
    imageBlob := [], hasTable := false, tableCells := [] }

def demoShape2 : PptShape :=
  { hasText := true, text := "click".data, hasTextFrame := true,
    textFrameParagraphs := [{ runs := [demoRunLink] }], shapeType := 1,
    imageBlob := [], hasTable := false, tableCells := [] }

/-- A slide deck whose only hyperlinked run sits on slide 2. -/
def demoDeck : PptDoc :=
  { slides := [{ shapes := [demoShape1] }, { shapes := [demoShape2] }],
    coreProps := noProps }

/-- A valid-path PDF with an empty text layer that rasterizes into two
pages, the OCR of each of which raises. -/
def demoPdfAllFail : PdfEnv :=
  { validPath := true, minerText := some [], convertOk := true,
    pages := [none, none] }

/-- A PDF whose info dictionary declares the single key `Title`. -/
def demoPdfInfoDoc : PdfDoc :=
  { minerText := [], pages := [], info := [("Title", some "T")] }

/-- The spec's round-trip example table `[["a","b"],["c",""]]`. -/
def demoTable : PyTable :=
  [[some "a".data, some "b".data], [some "c".data, some "".data]]

/-! ## Helper lemmas -/

/-- The OCR page fold accumulates exactly the successful pages' text, a
failed page contributing nothing. -/
theorem ocrFold_eq (pages : List (Option PyStr)) (acc : PyStr) :
    pages.foldl (fun acc pg =>
      match pg with
      | some t => acc ++ t
      | none => acc) acc
      = acc ++ (pages.map (fun pg => pg.getD [])).join := by
  induction pages generalizing acc with
  | nil => simp
  | cons pg rest ih => cases pg <;> simp [ih, List.append_assoc]

/-- Unfolding `intercalate` over a cons with a nonempty tail. -/
theorem intercalate_cons_of_ne_nil (s x : PyStr) (l : List PyStr)
    (h : l ≠ []) :
    List.intercalate s (x :: l) = x ++ s ++ List.intercalate s l := by
  cases l with
  | nil => exact absurd rfl h
  | cons y ys =>
    simp [List.intercalate, List.intersperse, List.append_assoc]

/-- A character differing from the separator and absent from every part is
absent from the intercalation. -/
theorem not_mem_intercalate (c sep : Char) (hcs : c ≠ sep)
    (l : List PyStr) (h : ∀ xs ∈ l, c ∉ xs) :
    c ∉ List.intercalate [sep] l := by
  induction l with
  | nil => simp [List.intercalate, List.intersperse]
  | cons x xs ih =>
    cases xs with
    | nil =>
      simpa [List.intercalate, List.intersperse] using h x (by simp)
    | cons y ys =>
      rw [intercalate_cons_of_ne_nil _ _ _ (by simp)]
      simp only [List.mem_append, List.mem_singleton]
      push_neg
      exact ⟨⟨h x (by simp), hcs⟩,
        ih (fun zs hzs => h zs (List.mem_cons_of_mem _ hzs))⟩

/-! ## Claim theorems -/

/-- C7: an extractor holding an unrecognized loader falls through every
`isinstance` dispatch of data_extractor.py: `extract_text` returns the empty
string, `extract_links` / `extract_images` / `extract_tables` return the
empty list, and `extract_metadata` returns the empty mapping — none of them
fail. -/
theorem unrecognized_loader_empty_defaults :
    DataExtractor.extract_text Loader.other = [] ∧
    DataExtractor.extract_links Loader.other = [] ∧
    DataExtractor.extract_images Loader.other = [] ∧
    DataExtractor.extract_tables Loader.other = [] ∧
    DataExtractor.extract_metadata Loader.other = [] :=
  ⟨rfl, rfl, rfl, rfl, rfl⟩

/-- C6: zero-length extraction results are tolerated by both sinks with no
spurious records: the filesystem sink still writes the (empty) text and
links files but writes no table and no image file and records no image
error, and the relational sink performs no inserts for empty link, table or
image sets. -/
theorem empty_results_no_spurious_records (ft : String) :
    Storage.save_text ft [] = [(Storage.textFilePath ft, [])] ∧
    Storage.save_links ft [] = [(Storage.linksFilePath ft, [])] ∧
    Storage.save_tables ft [] = [] ∧
    Storage.save_images ft [] = ([], []) ∧
    StorageSQL.save_links ft [] = [] ∧
    StorageSQL.save_tables ft [] = [] ∧
    StorageSQL.save_images ft [] = ([], []) :=
  ⟨rfl, rfl, rfl, rfl, rfl, rfl, rfl⟩

/-- C2 (code bug): `StorageSQL.save_text` hands the extracted string to the
generic `_save_to_db` helper, whose `for item in data` loop iterates a
string character by character — so the text `"ab"` is persisted as two
inserts into `extracted_text`, with contents `"a"` and `"b"`, instead of
the one insert carrying the whole string that the spec's schema describes. -/
theorem save_text_inserts_per_character :
    StorageSQL.save_text "pdf" ['a', 'b']
      = [("pdf", ['a']), ("pdf", ['b'])] ∧
    (StorageSQL.save_text "pdf" ['a', 'b']).length = 2 ∧
    (StorageSQL.save_text "pdf" ['a', 'b']).map Prod.snd
      ≠ [['a', 'b']] :=
  ⟨rfl, rfl, by decide⟩

/-- C1 (amended): extractor.py's PDF load attempts the pdfminer text layer
first and, when that extraction succeeds, enters the rasterize-then-OCR
fallback exactly when the extracted text strips to empty; the OCR pass
concatenates per-page results with a failed page contributing empty text
and the loop continuing; when rasterization succeeds but OCR fails on every
single page the load still SUCCEEDS, producing an empty-text handle; the
`ValueError` load failure arises when the OCR routine itself raises
(rasterization failure), and a non-whitespace text layer is returned
directly with no OCR. -/
theorem pdf_load_ocr_fallback (e : PdfEnv) (t : PyStr) :
    (e.validPath = true → e.minerText = some t →
      ((ExtractorPy.PDFLoader.load_file_instr e).2 = true ↔ pyStrip t = [])) ∧
    (e.convertOk = true →
      ExtractorPy.PDFLoader.extract_text_with_ocr e
        = some ((e.pages.map (fun pg => pg.getD [])).join)) ∧
    (e.validPath = true → e.minerText = some t → pyStrip t = [] →
      e.convertOk = true → (∀ pg ∈ e.pages, pg = none) →
      ExtractorPy.PDFLoader.load_file e = Except.ok []) ∧
    (e.validPath = true → e.minerText = some t → pyStrip t = [] →
      e.convertOk = false →
      ExtractorPy.PDFLoader.load_file e
        = Except.error "Failed to extract text from PDF.") ∧
    (e.validPath = true → e.minerText = some t → pyStrip t ≠ [] →
      ExtractorPy.PDFLoader.load_file_instr e = (Except.ok t, false)) := by
  refine ⟨?_, ?_, ?_, ?_, ?_⟩
  · intro hv hm
    by_cases hs : pyStrip t = []
    · simp only [ExtractorPy.PDFLoader.load_file_instr, hv, hm, hs,
        Bool.not_true, ne_eq, not_true_eq_false, if_true, if_false]
      cases hocr : ExtractorPy.PDFLoader.extract_text_with_ocr e <;>
        simp [hocr]
    · simp [ExtractorPy.PDFLoader.load_file_instr, hv, hm, hs]
  · intro hc
    simp [ExtractorPy.PDFLoader.extract_text_with_ocr, hc, ocrFold_eq]
  · intro hv hm hs hc hall
    have hocr : ExtractorPy.PDFLoader.extract_text_with_ocr e = some [] := by
      simp only [ExtractorPy.PDFLoader.extract_text_with_ocr, hc, if_true,
        ocrFold_eq, List.nil_append, Option.some.injEq]
      exact List.flatten_eq_nil_iff.mpr fun l hl => by
        obtain ⟨pg, hpg, rfl⟩ := List.mem_map.mp hl
        rw [hall pg hpg]
        rfl
    simp [ExtractorPy.PDFLoader.load_file, ExtractorPy.PDFLoader.load_file_instr,
      hv, hm, hs, hocr]
  · intro hv hm hs hc
    have hocr : ExtractorPy.PDFLoader.extract_text_with_ocr e = none := by
      simp [ExtractorPy.PDFLoader.extract_text_with_ocr, hc]
    simp [ExtractorPy.PDFLoader.load_file, ExtractorPy.PDFLoader.load_file_instr,
      hv, hm, hs, hocr]
  · intro hv hm hs
    simp [ExtractorPy.PDFLoader.load_file_instr, hv, hm, hs]

/-- C1 witness: the fallback behavior evaluated on a concrete PDF — empty
text layer, two pages, OCR failing on both — load succeeds with empty
text. -/
theorem pdf_load_ocr_fallback_witness :
    ExtractorPy.PDFLoader.load_file demoPdfAllFail = Except.ok [] :=
  (pdf_load_ocr_fallback demoPdfAllFail []).2.2.1 rfl rfl rfl rfl (by decide)

/-- C1 counterexample to the claim as stated: on a valid PDF whose text
layer is empty and whose OCR fails on every one of its (two) pages, the
load does NOT surface a failure — it returns an empty-text handle. -/
theorem total_page_ocr_failure_still_loads :
    demoPdfAllFail.pages = [none, none] ∧
    demoPdfAllFail.minerText = some [] ∧
    ExtractorPy.PDFLoader.load_file demoPdfAllFail = Except.ok [] :=
  ⟨rfl, rfl, rfl⟩

/-- C3 (amended): for WORD and SLIDES documents `extract_metadata` returns
exactly the six-key mapping `title, author, subject, keywords, created,
modified` read off the core-properties object (null where a property is
absent); for PDF documents it returns the document info dictionary
unchanged, so its key set is whatever the PDF declares rather than the six
normalized keys. -/
theorem extract_metadata_keys (d : DocxDoc) (p : PptDoc) (pd : PdfDoc) :
    (DataExtractor.extract_metadata (Loader.docx d)).map Prod.fst
      = ["title", "author", "subject", "keywords", "created", "modified"] ∧
    (DataExtractor.extract_metadata (Loader.ppt p)).map Prod.fst
      = ["title", "author", "subject", "keywords", "created", "modified"] ∧
    DataExtractor.extract_metadata (Loader.pdf pd) = pd.info :=
  ⟨rfl, rfl, rfl⟩

/-- C3 counterexample to the claim as stated: a loaded PDF whose info
dictionary declares the single key `Title` makes `extract_metadata` return
a one-key mapping, not the six-key mapping. -/
theorem pdf_metadata_not_six_keys :
    (DataExtractor.extract_metadata (Loader.pdf demoPdfInfoDoc)).map Prod.fst
      = ["Title"] ∧
    (["Title"] : List String)
      ≠ ["title", "author", "subject", "keywords", "created", "modified"] :=
  ⟨rfl, by decide⟩

/-- C5: each loader of file_loader.py fails fast — a path failing the
extension-and-existence validation makes `load_file` raise the typed
`ValueError` with the underlying parser never invoked (flag `false`), and a
path passing validation yields a handle (for DOCX/PPTX the parsed object,
for PDF the path itself; the PDF loader involves no parser at all). -/
theorem load_fail_fast {H : Type} (isFile : PyStr → Bool)
    (parse : PyStr → H) (p : PyStr) :
    (PDFLoader.validate_file isFile p = false →
      PDFLoader.load_file isFile p = Except.error "Invalid PDF file") ∧
    (PDFLoader.validate_file isFile p = true →
      PDFLoader.load_file isFile p = Except.ok p) ∧
    (DOCXLoader.validate_file isFile p = false →
      DOCXLoader.load_file isFile parse p
        = (Except.error "Invalid DOCX file", false)) ∧
    (DOCXLoader.validate_file isFile p = true →
      DOCXLoader.load_file isFile parse p = (Except.ok (parse p), true)) ∧
    (PPTLoader.validate_file isFile p = false →
      PPTLoader.load_file isFile parse p
        = (Except.error "Invalid PPTX file", false)) ∧
    (PPTLoader.validate_file isFile p = true →
      PPTLoader.load_file isFile parse p = (Except.ok (parse p), true)) := by
  refine ⟨?_, ?_, ?_, ?_, ?_, ?_⟩ <;> intro h <;>
    simp [PDFLoader.load_file, DOCXLoader.load_file, PPTLoader.load_file, h]

/-- C5 witness: on a filesystem holding only `doc.docx`, loading `a.txt`
fails without parsing and loading `doc.docx` parses and returns the
handle. -/
theorem load_fail_fast_witness :
    DOCXLoader.load_file (fun s => s = "doc.docx".data) (fun s => s)
        ("a.txt".data)
      = (Except.error "Invalid DOCX file", false) ∧
    DOCXLoader.load_file (fun s => s = "doc.docx".data) (fun s => s)
        ("doc.docx".data)
      = (Except.ok ("doc.docx".data), true) :=
  ⟨(load_fail_fast (fun s => s = "doc.docx".data) (fun s => s)
      ("a.txt".data)).2.2.1 (by decide),
   (load_fail_fast (fun s => s = "doc.docx".data) (fun s => s)
      ("doc.docx".data)).2.2.2.1 (by decide)⟩

/-- C10: the filesystem sink's text write persists
`extract_text().strip()`: the saved file content equals the stripped
extraction, a whitespace-only extraction writes an empty file, and any
extraction with leading whitespace is persisted not byte-identical to
itself. -/
theorem save_text_strips (ft : String) (t : PyStr) :
    Storage.save_text ft t = [(Storage.textFilePath ft, pyStrip t)] ∧
    ((∀ c ∈ t, pyIsSpace c = true) →
      Storage.save_text ft t = [(Storage.textFilePath ft, [])]) ∧
    (∀ c rest, t = c :: rest → pyIsSpace c = true → pyStrip t ≠ t) := by
  refine ⟨rfl, ?_, ?_⟩
  · intro h
    have hs : pyStrip t = [] := by
      unfold pyStrip
      rw [List.dropWhile_eq_nil_iff.mpr h]
      rfl
    simp [Storage.save_text, hs]
  · intro c rest ht hsp heq
    have h1 : (pyStrip t).length ≤ (t.dropWhile pyIsSpace).length := by
      unfold pyStrip
      calc ((t.dropWhile pyIsSpace).reverse.dropWhile pyIsSpace).reverse.length
          = ((t.dropWhile pyIsSpace).reverse.dropWhile pyIsSpace).length := by
            rw [List.length_reverse]
        _ ≤ (t.dropWhile pyIsSpace).reverse.length :=
            (List.dropWhile_sublist pyIsSpace).length_le
        _ = (t.dropWhile pyIsSpace).length := by rw [List.length_reverse]
    have h2 : t.dropWhile pyIsSpace = rest.dropWhile pyIsSpace := by
      rw [ht, List.dropWhile_cons_of_pos hsp]
    have h3 : (pyStrip t).length < t.length := by
      calc (pyStrip t).length ≤ (t.dropWhile pyIsSpace).length := h1
        _ = (rest.dropWhile pyIsSpace).length := by rw [h2]
        _ ≤ rest.length := (List.dropWhile_sublist pyIsSpace).length_le
        _ < t.length := by rw [ht]; simp
    rw [heq] at h3
    exact Nat.lt_irrefl _ h3

/-- C10 witness: the text `" a "` is persisted as `"a"`, which is not the
extraction result itself. -/
theorem save_text_strips_witness :
    pyStrip (' ' :: 'a' :: ' ' :: []) ≠ (' ' :: 'a' :: ' ' :: []) :=
  (save_text_strips "pdf" (' ' :: 'a' :: ' ' :: [])).2.2
    ' ' ('a' :: ' ' :: []) rfl rfl

/-- C4 (amended): for every nonempty table all of whose rows are nonempty
and none of whose rendered cells contains a comma or a newline, the
relational sink's blob encoding — rows newline-joined, cells comma-joined,
null cells as empty strings — deserializes (split on newlines, then commas)
back to exactly the original row/cell structure. -/
theorem table_blob_round_trip (t : PyTable)
    (h1 : t ≠ [])
    (h2 : ∀ row ∈ t, row ≠ [])
    (h3 : ∀ row ∈ t, ∀ c ∈ row,
      ',' ∉ StorageSQL.serializeCell c ∧ '\n' ∉ StorageSQL.serializeCell c) :
    StorageSQL.deserializeTable (StorageSQL.serializeTable t)
      = StorageSQL.renderTable t := by
  unfold StorageSQL.deserializeTable StorageSQL.serializeTable
    StorageSQL.renderTable pySplit
  rw [List.splitOn_intercalate (t.map StorageSQL.serializeRow) '\n'
    (by
      intro l hl
      obtain ⟨row, hrow, rfl⟩ := List.mem_map.mp hl
      exact not_mem_intercalate '\n' ',' (by decide) _
        (fun xs hxs => by
          obtain ⟨c, hc, rfl⟩ := List.mem_map.mp hxs
          exact (h3 row hrow c hc).2))
    (by simpa using h1)]
  rw [List.map_map]
  apply List.map_congr_left
  intro row hrow
  exact List.splitOn_intercalate (row.map StorageSQL.serializeCell) ','
    (fun xs hxs => by
      obtain ⟨c, hc, rfl⟩ := List.mem_map.mp hxs
      exact (h3 row hrow c hc).1)
    (by simpa using h2 row hrow)

/-- C4 witness: the spec's example table `[["a","b"],["c",""]]` (no cell
holding a delimiter) round-trips through the stored blob. -/
theorem table_blob_round_trip_witness :
    StorageSQL.deserializeTable (StorageSQL.serializeTable demoTable)
      = StorageSQL.renderTable demoTable ∧
    StorageSQL.renderTable demoTable
      = [["a".data, "b".data], ["c".data, []]] :=
  ⟨table_blob_round_trip demoTable (by decide) (by decide) (by decide), rfl⟩

/-- C4 counterexample to the universally quantified claim: the empty table
(vacuously delimiter-free) serializes to the empty blob, which
deserializes to `[[""]]`, not back to the empty table; the claim needs the
table and each of its rows nonempty. -/
theorem empty_table_blob_no_round_trip :
    StorageSQL.serializeTable ([] : PyTable) = [] ∧
    StorageSQL.deserializeTable (StorageSQL.serializeTable ([] : PyTable))
      = [[[]]] ∧
    StorageSQL.renderTable ([] : PyTable) = [] ∧
    ([[[]]] : List (List PyStr)) ≠ [] :=
  ⟨rfl, by decide, rfl, by decide⟩

/-- The filesystem image loop from start index `i` writes exactly the
decodable images (with their 1-based positions and inferred extensions) and
records exactly the failing positions. -/
theorem Storage.saveImagesFrom_fs_spec (ft : String) (i : Nat)
    (imgs : List (Option PilImage)) :
    Storage.saveImagesFrom ft i imgs =
      ((imgs.enumFrom i).filterMap fun p =>
        p.2.map fun img =>
          (Storage.imageFilePath ft (p.1 + 1) img.fmt.toLower, img.bytes),
       (imgs.enumFrom i).filterMap fun p =>
        match p.2 with
        | none => some (p.1 + 1)
        | some _ => none) := by
  induction imgs generalizing i with
  | nil => rfl
  | cons o rest ih =>
    cases o <;> simp [Storage.saveImagesFrom, List.enumFrom_cons, ih,
      Option.map]

/-- The relational image loop from start index `i` inserts exactly the
decodable images and records exactly the failing positions. -/
theorem StorageSQL.saveImagesFrom_sql_spec (ft : String) (i : Nat)
    (imgs : List (Option PilImage)) :
    StorageSQL.saveImagesFrom ft i imgs =
      ((imgs.enumFrom i).filterMap fun p =>
        p.2.map fun img => (ft, img.bytes),
       (imgs.enumFrom i).filterMap fun p =>
        match p.2 with
        | none => some (p.1 + 1)
        | some _ => none) := by
  induction imgs generalizing i with
  | nil => rfl
  | cons o rest ih =>
    cases o <;> simp [StorageSQL.saveImagesFrom, List.enumFrom_cons, ih,
      Option.map]

/-- C8: for every image list, both sinks' image writes are total — a decode
failure is recorded (its 1-based index lands in the error log) and skipped,
and the persisted records are exactly the decodable images in order, so
every decodable image after any failing one is still persisted. -/
theorem image_decode_failure_skipped (ft : String)
    (imgs : List (Option PilImage)) :
    Storage.save_images ft imgs =
      (imgs.enum.filterMap fun p =>
        p.2.map fun img =>
          (Storage.imageFilePath ft (p.1 + 1) img.fmt.toLower, img.bytes),
       imgs.enum.filterMap fun p =>
        match p.2 with
        | none => some (p.1 + 1)
        | some _ => none) ∧
    StorageSQL.save_images ft imgs =
      (imgs.enum.filterMap fun p =>
        p.2.map fun img => (ft, img.bytes),
       imgs.enum.filterMap fun p =>
        match p.2 with
        | none => some (p.1 + 1)
        | some _ => none) :=
  ⟨Storage.saveImagesFrom_fs_spec ft 0 imgs,
   StorageSQL.saveImagesFrom_sql_spec ft 0 imgs⟩

/-- Collecting `(run.text, address)` and then projecting to the second
component is the same per-run choice as collecting the address alone. -/
theorem run_link_proj (r : PptRun) :
    (Option.map Prod.snd
      (match r.hyperlinkAddress with
       | some a => if a ≠ [] then some (r.text, a) else none
       | none => none))
      = (match r.hyperlinkAddress with
         | some a => if a ≠ [] then some a else none
         | none => none) := by
  cases h : r.hyperlinkAddress with
  | none => rfl
  | some a => by_cases ha : a = [] <;> simp [ha]

/-- C9 (amended): the two slide-deck link extractors traverse slides,
shapes, paragraphs and runs identically and keep the same runs, but
extractor.py collects the `(run text, address)` pair where
data_extractor.py collects the address string alone — so the extractor.py
result projected to its second components equals the data_extractor.py
result; on a deck whose single hyperlinked run sits on slide 2, the former
returns the one-element pair list and the latter the one-element address
list. -/
theorem ppt_links_variants_agree_up_to_projection (d : PptDoc) :
    (ExtractorPy.DataExtractor.extract_links_ppt d).map Prod.snd
      = DataExtractor.extract_ppt_links d ∧
    DataExtractor.extract_ppt_links demoDeck = ["http://x".data] ∧
    ExtractorPy.DataExtractor.extract_links_ppt demoDeck
      = [("click".data, "http://x".data)] := by
  refine ⟨?_, by decide, by decide⟩
  unfold ExtractorPy.DataExtractor.extract_links_ppt
    DataExtractor.extract_ppt_links
  simp only [List.map_flatMap, apply_ite (List.map Prod.snd),
    List.map_filterMap, run_link_proj, List.map_nil]

/-- C9 counterexample to the claim as stated: on the deck with one
hyperlinked run (text `click`, address `http://x`) on slide 2,
data_extractor.py returns the address string while extractor.py returns
the `(run text, address)` pair — the element is not the address string, so
the two lists are not equal. -/
theorem ppt_links_variants_differ :
    DataExtractor.extract_ppt_links demoDeck = ["http://x".data] ∧
    ExtractorPy.DataExtractor.extract_links_ppt demoDeck
      = [("click".data, "http://x".data)] ∧
    "click".data ≠ "http://x".data :=
  ⟨by decide, by decide, by decide⟩
